import Mathlib

/-!
Verification of the access-control core of the license-manager backend
(`backend/app.py`): accounts with a three-tier role hierarchy, cookie-backed
sessions, ownership transfer, differentiated password rules, and an
append-only audit log.  The definitions below are a shallow embedding of the
Flask handlers; database rows become list entries, the SQLite `auth_users`
and `audit_log` tables become fields of a `DB` record, and the Flask
session cookie becomes an `Option Session` value threaded through each
endpoint.
-/

namespace LicenseManager

/-- Roles stored in the `role` column of `auth_users`
(CHECK role IN ('admin', 'owner', 'viewer')). -/
inductive Role where
  | owner
  | admin
  | viewer
deriving DecidableEq, Repr

/-- String form of a role, as stored in the database. -/
def Role.toStr : Role → String
  | .owner => "owner"
  | .admin => "admin"
  | .viewer => "viewer"

/-- One row of the `auth_users` table (timestamps elided: no handler
branches on `created_at` or `updated_at`). -/
structure Account where
  id : Nat
  username : String
  password_hash : String
  role : Role
deriving DecidableEq, Repr

/-- The Flask session contents set at login: `user_id`, `username` and the
`role` snapshot (`session['role']`). -/
structure Session where
  user_id : Nat
  username : String
  role : Role
deriving DecidableEq, Repr

/-- One row of the `audit_log` table.  `details` is kept as an optional
string (the code stores `json.dumps(details)`). -/
structure AuditEntry where
  id : Nat
  timestamp : Nat
  action_type : String
  performed_by : String
  target : Option String
  details : Option String
deriving DecidableEq, Repr

/-- The persistent state: the two auth tables plus the SQLite
autoincrement counters and a logical clock standing for
`CURRENT_TIMESTAMP` (each audit insert gets a fresh, strictly larger
timestamp). -/
structure DB where
  auth_users : List Account
  audit_log : List AuditEntry
  next_user_id : Nat
  next_audit_id : Nat
  clock : Nat
deriving DecidableEq, Repr

/-- Model of werkzeug `generate_password_hash`: deterministic one-way tag.
Only the equations `check_password_hash (generate_password_hash p) q ↔ p = q`
are observable to the handlers. -/
def generate_password_hash (p : String) : String :=
  "pbkdf2:sha256$" ++ p

/-- Model of werkzeug `check_password_hash`. -/
def check_password_hash (h p : String) : Bool :=
  h == generate_password_hash p

/-- `log_audit_event`: INSERT one row into `audit_log` (app.py lines
95-109).  The write is best-effort in the source; the success path is
modelled. -/
def log_audit_event (db : DB) (action_type performed_by : String)
    (target : Option String) (details : Option String) : DB :=
  { db with
    audit_log := db.audit_log ++
      [⟨db.next_audit_id, db.clock, action_type, performed_by, target, details⟩],
    next_audit_id := db.next_audit_id + 1,
    clock := db.clock + 1 }

/-- `SELECT ... FROM auth_users WHERE username = ?`. -/
def findUser (db : DB) (u : String) : Option Account :=
  db.auth_users.find? (fun a => a.username == u)

/-- `SELECT ... FROM auth_users WHERE id = ?`. -/
def findUserById (db : DB) (i : Nat) : Option Account :=
  db.auth_users.find? (fun a => a.id == i)

/-- Outcome of the `role_required` decorator: either the request proceeds
with the caller's current database role, or it is rejected with an HTTP
status, a message, and a flag telling whether `session.clear()` ran. -/
inductive GateResult where
  | granted : Role → GateResult
  | denied : Nat → String → Bool → GateResult
deriving DecidableEq, Repr

/-- The `role_required` decorator (app.py lines 126-179): requires a
session username, looks the caller's role up in `auth_users` (not the
session snapshot), clears the session with 401 when the account no longer
exists, and rejects with 403 when the fresh role is not in the allowed
list. -/
def role_required (db : DB) (sess : Option Session) (allowed : List Role) :
    GateResult :=
  match sess with
  | none => .denied 401 "Authentication required" false
  | some s =>
    match findUser db s.username with
    | none => .denied 401 "User not found" true
    | some a =>
      if allowed.contains a.role then .granted a.role
      else .denied 403 "Access denied" false

/-- An HTTP response as far as the claims observe it: status code, the
`success` flag, the `error` message when present, and the
`logout_required` flag of the transfer endpoint. -/
structure Resp where
  status : Nat
  success : Bool
  error : Option String
  logout_required : Bool
deriving DecidableEq, Repr

/-- A plain 200 success body. -/
def okResp : Resp := ⟨200, true, none, false⟩

/-- An error body `{"success": false, "error": msg}` with the given
status. -/
def errResp (status : Nat) (msg : String) : Resp :=
  ⟨status, false, some msg, false⟩

/-- The repeated `except Exception as e: return jsonify(success=False,
error=str(e)), 500` block at the bottom of every handler: the raw
exception text is placed in the response body. -/
def handle_unexpected_exception (e : String) : Resp :=
  errResp 500 e

/-- The `@app.errorhandler(500)` fallback (app.py lines 1658-1664), which
does return a generic message — but the per-handler `except` blocks above
fire first and bypass it. -/
def internal_error_response : Resp :=
  errResp 500 "Internal server error"

/-- POST /login (app.py lines 427-482): verify the password, set the
session (user_id, username, role snapshot), log one `login` audit event.
Returns the new database, the caller's session, and a response. -/
def login (db : DB) (username password : String) :
    DB × Option Session × Resp :=
  match findUser db username with
  | none => (db, none, errResp 401 "Invalid username or password")
  | some u =>
    if check_password_hash u.password_hash password then
      (log_audit_event db "login" username none none,
       some ⟨u.id, u.username, u.role⟩, okResp)
    else
      (db, none, errResp 401 "Invalid username or password")

/-- POST /logout (app.py lines 485-497): log a `logout` event when a
session is present, then `session.clear()`; always 200. -/
def logout (db : DB) (sess : Option Session) :
    DB × Option Session × Resp :=
  match sess with
  | some s => (log_audit_event db "logout" s.username none none, none, okResp)
  | none => (db, none, okResp)

/-- POST /auth/admins (app.py lines 555-623): owner-only creation of an
admin or viewer account.  Validates the role string, rejects duplicate
usernames with 409, inserts the row, and logs `create_<role>`. -/
def create_admin (db : DB) (sess : Option Session)
    (username password roleStr : String) : DB × Option Session × Resp :=
  match sess with
  | none => (db, none, errResp 401 "Authentication required")
  | some s =>
    match role_required db (some s) [.owner] with
    | .denied st m c => (db, if c then none else some s, errResp st m)
    | .granted _ =>
      match (if roleStr == "admin" then some Role.admin
             else if roleStr == "viewer" then some Role.viewer
             else none) with
      | none => (db, some s, errResp 400 "Role must be 'admin' or 'viewer'")
      | some role =>
        if (findUser db username).isSome then
          (db, some s, errResp 409 "Username already exists")
        else
          let db1 := { db with
            auth_users := db.auth_users ++
              [⟨db.next_user_id, username, generate_password_hash password, role⟩],
            next_user_id := db.next_user_id + 1 }
          let db2 := log_audit_event db1 ("create_" ++ roleStr) s.username
            (some username) none
          (db2, some s, ⟨201, true, none, false⟩)

/-- DELETE /auth/admins/id (app.py lines 626-683): owner-only deletion;
404 when the id is unknown, 403 when the target is the owner or the
caller themselves; otherwise delete the row and log `delete_<role>`. -/
def delete_admin (db : DB) (sess : Option Session) (admin_id : Nat) :
    DB × Option Session × Resp :=
  match sess with
  | none => (db, none, errResp 401 "Authentication required")
  | some s =>
    match role_required db (some s) [.owner] with
    | .denied st m c => (db, if c then none else some s, errResp st m)
    | .granted _ =>
      match findUserById db admin_id with
      | none => (db, some s, errResp 404 "User not found")
      | some u =>
        if u.role = .owner then
          (db, some s, errResp 403 "Cannot delete the owner account")
        else if admin_id = s.user_id then
          (db, some s, errResp 403 "Cannot delete your own account")
        else
          let db1 := { db with
            auth_users := db.auth_users.filter (fun a => a.id ≠ admin_id) }
          let db2 := log_audit_event db1 ("delete_" ++ u.role.toStr)
            s.username (some u.username) none
          (db2, some s, okResp)

/-- First UPDATE of the transfer: `SET role='admin' WHERE role='owner'`. -/
def demoteOwner (a : Account) : Account :=
  if a.role = .owner then { a with role := .admin } else a

/-- Second UPDATE of the transfer: `SET role='owner' WHERE username = ?`. -/
def promoteTo (t : String) (a : Account) : Account :=
  if a.username = t then { a with role := .owner } else a

/-- POST /auth/transfer-ownership (app.py lines 686-763): owner-only; 404
when the target username is unknown, 400 when the target is not an admin;
otherwise demote every owner to admin, promote the target to owner, log
`transfer_ownership`, and clear the caller's session (with
`logout_required`) when the caller is not the new owner. -/
def transfer_ownership (db : DB) (sess : Option Session)
    (new_owner_username : String) : DB × Option Session × Resp :=
  match sess with
  | none => (db, none, errResp 401 "Authentication required")
  | some s =>
    match role_required db (some s) [.owner] with
    | .denied st m c => (db, if c then none else some s, errResp st m)
    | .granted _ =>
      match findUser db new_owner_username with
      | none => (db, some s, errResp 404 "User not found")
      | some t =>
        if t.role ≠ .admin then
          (db, some s,
           errResp 400 "Can only transfer ownership to an admin user")
        else
          let db1 := { db with
            auth_users :=
              (db.auth_users.map demoteOwner).map (promoteTo new_owner_username) }
          let db2 := log_audit_event db1 "transfer_ownership" s.username
            (some new_owner_username)
            (some ("old_owner:" ++ s.username ++ ";new_owner:" ++ new_owner_username))
          if s.username ≠ new_owner_username then
            (db2, none, ⟨200, true, none, true⟩)
          else
            (db2, some s, okResp)

/-- UPDATE of a stored password hash by username. -/
def updateHash (db : DB) (username h : String) : DB :=
  { db with
    auth_users := db.auth_users.map
      (fun a => if a.username = username then { a with password_hash := h } else a) }

/-- POST /auth/reset-password (app.py lines 766-841): admin/owner gate
(database role); 404 on unknown target; the caller-side permission check
uses the session snapshot `session['role']` — an admin snapshot may only
reset viewers, an owner snapshot may reset anyone, any other snapshot is
rejected; on success the hash is replaced and `reset_password` logged. -/
def reset_password (db : DB) (sess : Option Session)
    (username new_password : String) : DB × Option Session × Resp :=
  match sess with
  | none => (db, none, errResp 401 "Authentication required")
  | some s =>
    match role_required db (some s) [.admin, .owner] with
    | .denied st m c => (db, if c then none else some s, errResp st m)
    | .granted _ =>
      match findUser db username with
      | none => (db, some s, errResp 404 "User not found")
      | some t =>
        if s.role = .admin then
          if t.role ≠ .viewer then
            (db, some s, errResp 403 "Admins can only reset viewer passwords")
          else
            let db1 := updateHash db username (generate_password_hash new_password)
            let db2 := log_audit_event db1 "reset_password" s.username
              (some username) none
            (db2, some s, okResp)
        else if s.role = .owner then
          let db1 := updateHash db username (generate_password_hash new_password)
          let db2 := log_audit_event db1 "reset_password" s.username
            (some username) none
          (db2, some s, okResp)
        else
          (db, some s, errResp 403 "Insufficient permissions")

/-- POST /auth/change-password (app.py lines 844-900): admin/owner gate;
verifies the supplied current password against the caller's stored hash
(401 on mismatch), then replaces the hash and logs `change_password`. -/
def change_own_password (db : DB) (sess : Option Session)
    (current_password new_password : String) : DB × Option Session × Resp :=
  match sess with
  | none => (db, none, errResp 401 "Authentication required")
  | some s =>
    match role_required db (some s) [.admin, .owner] with
    | .denied st m c => (db, if c then none else some s, errResp st m)
    | .granted _ =>
      match findUser db s.username with
      | none => (db, some s, errResp 401 "Current password is incorrect")
      | some u =>
        if check_password_hash u.password_hash current_password then
          let db1 := updateHash db s.username
            (generate_password_hash new_password)
          let db2 := log_audit_event db1 "change_password" s.username
            (some s.username) none
          (db2, some s, okResp)
        else
          (db, some s, errResp 401 "Current password is incorrect")

/-- Ordering used by `ORDER BY timestamp DESC`: larger timestamps first. -/
def tsDesc (a b : AuditEntry) : Prop :=
  b.timestamp ≤ a.timestamp

instance : DecidableRel tsDesc := fun a b =>
  inferInstanceAs (Decidable (b.timestamp ≤ a.timestamp))

instance : IsTotal AuditEntry tsDesc :=
  ⟨fun a b => (Nat.le_total b.timestamp a.timestamp).elim Or.inl Or.inr⟩

instance : IsTrans AuditEntry tsDesc :=
  ⟨fun _ _ _ hab hbc => Nat.le_trans hbc hab⟩

/-- GET /audit/logs (app.py lines 1106-1145): owner-only; `SELECT ...
ORDER BY timestamp DESC LIMIT 100`.  Returns the rows as the payload; the
database is not written (in particular no audit entry is appended by this
handler). -/
def get_audit_logs (db : DB) (sess : Option Session) :
    DB × Option Session × Resp × List AuditEntry :=
  match sess with
  | none => (db, none, errResp 401 "Authentication required", [])
  | some s =>
    match role_required db (some s) [.owner] with
    | .denied st m c => (db, if c then none else some s, errResp st m, [])
    | .granted _ =>
      (db, some s, okResp, (List.insertionSort tsDesc db.audit_log).take 100)

/-- `init_auth_tables` (app.py lines 43-92): empty tables receive the
seeded owner account admin/admin123 and a `create_owner` audit row. -/
def bootstrapDB : DB :=
  let db0 : DB := ⟨[⟨1, "admin", generate_password_hash "admin123", .owner⟩],
    [], 2, 1, 0⟩
  log_audit_event db0 "create_owner" "system" (some "admin")
    (some "Initial owner account created")

/-- Number of accounts whose role is owner. -/
def ownerCount (db : DB) : Nat :=
  (db.auth_users.filter (fun a => a.role == Role.owner)).length

/-- Well-formedness maintained by the schema and handlers: usernames are
UNIQUE, ids are primary keys below the autoincrement counter, and exactly
one account is the owner. -/
def WF (db : DB) : Prop :=
  (db.auth_users.map (fun a => a.username)).Nodup ∧
  (db.auth_users.map (fun a => a.id)).Nodup ∧
  (∀ a ∈ db.auth_users, a.id < db.next_user_id) ∧
  ownerCount db = 1

theorem ownerCount_eq_countP (db : DB) :
    ownerCount db = db.auth_users.countP (fun a => a.role == Role.owner) :=
  (List.countP_eq_length_filter _ _).symm

theorem log_audit_event_auth_users (db : DB) (a p : String)
    (t d : Option String) : (log_audit_event db a p t d).auth_users = db.auth_users :=
  rfl

theorem log_audit_event_next_user_id (db : DB) (a p : String)
    (t d : Option String) :
    (log_audit_event db a p t d).next_user_id = db.next_user_id :=
  rfl

theorem WF_of_auth_eq {db db' : DB} (h : WF db)
    (hu : db'.auth_users = db.auth_users)
    (hn : db'.next_user_id = db.next_user_id) : WF db' := by
  obtain ⟨h1, h2, h3, h4⟩ := h
  refine ⟨?_, ?_, ?_, ?_⟩
  · rw [hu]; exact h1
  · rw [hu]; exact h2
  · intro a ha; rw [hu] at ha; rw [hn]; exact h3 a ha
  · unfold ownerCount at h4 ⊢; rw [hu]; exact h4

theorem usernames_map_eq {f : Account → Account}
    (hf : ∀ a, (f a).username = a.username) (l : List Account) :
    (l.map f).map (fun a => a.username) = l.map (fun a => a.username) := by
  rw [List.map_map]
  exact List.map_congr_left (fun a _ => hf a)

theorem ids_map_eq {f : Account → Account}
    (hf : ∀ a, (f a).id = a.id) (l : List Account) :
    (l.map f).map (fun a => a.id) = l.map (fun a => a.id) := by
  rw [List.map_map]
  exact List.map_congr_left (fun a _ => hf a)

theorem countP_owner_map_eq {f : Account → Account}
    (hf : ∀ a, (f a).role = a.role) (l : List Account) :
    (l.map f).countP (fun a => a.role == Role.owner)
      = l.countP (fun a => a.role == Role.owner) := by
  rw [List.countP_map]
  exact List.countP_congr (fun a _ => by simp [Function.comp, hf a])

/-- Mapping a function that fixes `username`, `id` and `role` over the
account table preserves well-formedness. -/
theorem WF_map_fields {db : DB} (f : Account → Account) (h : WF db)
    (hu : ∀ a, (f a).username = a.username) (hi : ∀ a, (f a).id = a.id)
    (hr : ∀ a, (f a).role = a.role) :
    WF { db with auth_users := db.auth_users.map f } := by
  obtain ⟨h1, h2, h3, h4⟩ := h
  refine ⟨?_, ?_, ?_, ?_⟩
  · show ((db.auth_users.map f).map (fun a => a.username)).Nodup
    rw [usernames_map_eq hu]; exact h1
  · show ((db.auth_users.map f).map (fun a => a.id)).Nodup
    rw [ids_map_eq hi]; exact h2
  · intro a ha
    rcases List.mem_map.mp ha with ⟨b, hb, rfl⟩
    show (f b).id < db.next_user_id
    rw [hi b]; exact h3 b hb
  · rw [ownerCount_eq_countP] at h4 ⊢
    exact (countP_owner_map_eq hr db.auth_users).trans h4

/-- Updating a password hash preserves well-formedness. -/
theorem WF_updateHash {db : DB} (h : WF db) (u hsh : String) :
    WF (updateHash db u hsh) := by
  refine WF_map_fields _ h ?_ ?_ ?_ <;> intro a <;>
    by_cases hc : a.username = u <;> simp [hc]

/-- Inserting a fresh non-owner account preserves well-formedness. -/
theorem WF_append_account {db : DB} (h : WF db) (u p : String) (role : Role)
    (hro : role ≠ Role.owner) (hfresh : findUser db u = none) :
    WF { db with
      auth_users := db.auth_users ++
        [⟨db.next_user_id, u, generate_password_hash p, role⟩],
      next_user_id := db.next_user_id + 1 } := by
  obtain ⟨h1, h2, h3, h4⟩ := h
  have hfresh' : ∀ a ∈ db.auth_users, ¬ (a.username == u) = true :=
    List.find?_eq_none.mp hfresh
  refine ⟨?_, ?_, ?_, ?_⟩
  · show ((db.auth_users ++ [_]).map (fun a : Account => a.username)).Nodup
    rw [List.map_append, List.map_singleton]
    rw [(List.perm_append_singleton _ _).nodup_iff]
    refine List.nodup_cons.mpr ⟨?_, h1⟩
    intro hmem
    rcases List.mem_map.mp hmem with ⟨b, hb, hbu⟩
    exact hfresh' b hb (by simp [hbu])
  · show ((db.auth_users ++ [_]).map (fun a : Account => a.id)).Nodup
    rw [List.map_append, List.map_singleton]
    rw [(List.perm_append_singleton _ _).nodup_iff]
    refine List.nodup_cons.mpr ⟨?_, h2⟩
    intro hmem
    rcases List.mem_map.mp hmem with ⟨b, hb, hbu⟩
    exact absurd hbu (Nat.ne_of_lt (h3 b hb))
  · intro a ha
    rcases List.mem_append.mp ha with hl | hr
    · exact Nat.lt_trans (h3 a hl) (Nat.lt_succ_self _)
    · rcases List.mem_singleton.mp hr with rfl
      exact Nat.lt_succ_self _
  · rw [ownerCount_eq_countP] at h4 ⊢
    rw [List.countP_append, h4]
    have hz : List.countP (fun a => a.role == Role.owner)
        [(⟨db.next_user_id, u, generate_password_hash p, role⟩ : Account)] = 0 := by
      rw [List.countP_eq_zero]
      intro b hb
      rcases List.mem_singleton.mp hb with rfl
      simp [hro]
    omega

/-- In a table with distinct usernames that contains an account named `t`,
exactly one row matches username `t`. -/
theorem countP_username_eq_one {l : List Account} {t : String}
    (hnd : (l.map (fun a => a.username)).Nodup) {a : Account}
    (ha : a ∈ l) (hat : a.username = t) :
    l.countP (fun x => x.username == t) = 1 := by
  induction l with
  | nil => cases ha
  | cons x xs ih =>
    rw [List.map_cons, List.nodup_cons] at hnd
    obtain ⟨hx, hxs⟩ := hnd
    rcases List.mem_cons.mp ha with rfl | hmem
    · rw [List.countP_cons]
      have hz : xs.countP (fun x => x.username == t) = 0 := by
        rw [List.countP_eq_zero]
        intro b hb hbt
        have hbt' : b.username = t := by simpa using hbt
        apply hx
        rw [hat, ← hbt']
        exact List.mem_map_of_mem (fun a : Account => a.username) hb
      simp [hat, hz]
    · have hxt : (x.username == t) = false := by
        rw [beq_eq_false_iff_ne]
        intro hc
        apply hx
        rw [hc, ← hat]
        exact List.mem_map_of_mem (fun a : Account => a.username) hmem
      rw [List.countP_cons]
      simp [hxt]
      exact ih hxs hmem

/-- The two UPDATE statements of the ownership transfer leave exactly the
rows named `t` as owners. -/
theorem countP_owner_transfer {l : List Account} {t : String} :
    ((l.map demoteOwner).map (promoteTo t)).countP (fun a => a.role == Role.owner)
      = l.countP (fun x => x.username == t) := by
  rw [List.countP_map, List.countP_map]
  refine List.countP_congr (fun x _ => ?_)
  show ((promoteTo t (demoteOwner x)).role == Role.owner) = true ↔
    (x.username == t) = true
  unfold promoteTo demoteOwner
  by_cases h1 : x.role = Role.owner <;> by_cases h2 : x.username = t <;>
    simp [h1, h2]

/-- Deleting a row whose role is not owner (found by primary key) leaves
the owner count unchanged. -/
theorem countP_owner_delete {l : List Account} {i : Nat}
    (hnd : (l.map (fun a => a.id)).Nodup) {u : Account}
    (hu : l.find? (fun a => a.id == i) = some u) (hur : u.role ≠ Role.owner) :
    (l.filter (fun a => a.id ≠ i)).countP (fun a => a.role == Role.owner)
      = l.countP (fun a => a.role == Role.owner) := by
  have humem : u ∈ l := List.mem_of_find?_eq_some hu
  have hui : u.id = i := by simpa using List.find?_some hu
  rw [List.countP_filter]
  refine List.countP_congr (fun x hx => ?_)
  simp only [Bool.and_eq_true, decide_eq_true_eq]
  constructor
  · intro hc
    exact hc.1
  · intro hc
    refine ⟨hc, ?_⟩
    intro hxi
    have hxu : x = u := List.inj_on_of_nodup_map hnd hx humem (hxi.trans hui.symm)
    subst hxu
    exact hur (by simpa using hc)

theorem demoteOwner_username (a : Account) :
    (demoteOwner a).username = a.username := by
  unfold demoteOwner; split <;> rfl

theorem demoteOwner_id (a : Account) : (demoteOwner a).id = a.id := by
  unfold demoteOwner; split <;> rfl

theorem promoteTo_username (t : String) (a : Account) :
    (promoteTo t a).username = a.username := by
  unfold promoteTo; split <;> rfl

theorem promoteTo_id (t : String) (a : Account) :
    (promoteTo t a).id = a.id := by
  unfold promoteTo; split <;> rfl

/-- The two-UPDATE transfer sequence preserves well-formedness when the
target username is present in the table. -/
theorem WF_transfer_users {db : DB} (h : WF db) {t : String} {a : Account}
    (ha : findUser db t = some a) :
    WF { db with
      auth_users := (db.auth_users.map demoteOwner).map (promoteTo t) } := by
  obtain ⟨h1, h2, h3, h4⟩ := h
  have hamem : a ∈ db.auth_users := List.mem_of_find?_eq_some ha
  have hat : a.username = t := by simpa using List.find?_some ha
  refine ⟨?_, ?_, ?_, ?_⟩
  · show (((db.auth_users.map demoteOwner).map (promoteTo t)).map
      (fun a : Account => a.username)).Nodup
    rw [usernames_map_eq (promoteTo_username t),
      usernames_map_eq demoteOwner_username]
    exact h1
  · show (((db.auth_users.map demoteOwner).map (promoteTo t)).map
      (fun a : Account => a.id)).Nodup
    rw [ids_map_eq (promoteTo_id t), ids_map_eq demoteOwner_id]
    exact h2
  · intro x hx
    rcases List.mem_map.mp hx with ⟨y, hy, rfl⟩
    rcases List.mem_map.mp hy with ⟨z, hz, rfl⟩
    show (promoteTo t (demoteOwner z)).id < db.next_user_id
    rw [promoteTo_id, demoteOwner_id]
    exact h3 z hz
  · rw [ownerCount_eq_countP]
    show ((db.auth_users.map demoteOwner).map (promoteTo t)).countP
      (fun a => a.role == Role.owner) = 1
    rw [countP_owner_transfer]
    exact countP_username_eq_one h1 hamem hat

/-- Deleting a non-owner row found by primary key preserves
well-formedness. -/
theorem WF_delete_filter {db : DB} (h : WF db) {i : Nat} {u : Account}
    (hu : findUserById db i = some u) (hur : u.role ≠ Role.owner) :
    WF { db with auth_users := db.auth_users.filter (fun a => a.id ≠ i) } := by
  obtain ⟨h1, h2, h3, h4⟩ := h
  have hsub : List.Sublist (db.auth_users.filter (fun a => a.id ≠ i))
      db.auth_users :=
    List.filter_sublist _
  refine ⟨?_, ?_, ?_, ?_⟩
  · exact List.Nodup.sublist (List.Sublist.map _ hsub) h1
  · exact List.Nodup.sublist (List.Sublist.map _ hsub) h2
  · intro a ha
    exact h3 a (hsub.subset ha)
  · rw [ownerCount_eq_countP] at h4 ⊢
    exact (countP_owner_delete h2 hu hur).trans h4

/-- A validated role string is admin or viewer, never owner. -/
theorem parse_role_ne_owner {r : String} {role : Role}
    (h : (if r == "admin" then some Role.admin
          else if r == "viewer" then some Role.viewer else none) = some role) :
    role ≠ Role.owner := by
  split at h
  · cases h; decide
  · split at h
    · cases h; decide
    · cases h

theorem WF_login (db : DB) (u p : String) (h : WF db) : WF (login db u p).1 := by
  unfold login
  split
  · exact h
  · split
    · exact WF_of_auth_eq h rfl rfl
    · exact h

theorem WF_logout (db : DB) (sess : Option Session) (h : WF db) :
    WF (logout db sess).1 := by
  unfold logout
  split
  · exact WF_of_auth_eq h rfl rfl
  · exact h

theorem WF_create_admin (db : DB) (sess : Option Session) (u p r : String)
    (h : WF db) : WF (create_admin db sess u p r).1 := by
  unfold create_admin
  split
  · exact h
  · split
    · exact h
    · split
      · exact h
      · rename_i s _ _ role hrole
        split
        · exact h
        · rename_i hdup
          have hfresh : findUser db u = none :=
            Option.not_isSome_iff_eq_none.mp (by simpa using hdup)
          exact WF_of_auth_eq
            (WF_append_account h u p role (parse_role_ne_owner hrole) hfresh)
            rfl rfl

theorem WF_delete_admin (db : DB) (sess : Option Session) (i : Nat)
    (h : WF db) : WF (delete_admin db sess i).1 := by
  unfold delete_admin
  split
  · exact h
  · split
    · exact h
    · split
      · exact h
      · rename_i s _ _ u hu
        split
        · exact h
        · rename_i hur
          split
          · exact h
          · exact WF_of_auth_eq (WF_delete_filter h hu hur) rfl rfl

theorem WF_transfer_ownership (db : DB) (sess : Option Session) (t : String)
    (h : WF db) : WF (transfer_ownership db sess t).1 := by
  unfold transfer_ownership
  split
  · exact h
  · split
    · exact h
    · split
      · exact h
      · rename_i s _ _ a ha
        split
        · exact h
        · split
          · exact WF_of_auth_eq (WF_transfer_users h ha) rfl rfl
          · exact WF_of_auth_eq (WF_transfer_users h ha) rfl rfl

theorem WF_reset_password (db : DB) (sess : Option Session) (u p : String)
    (h : WF db) : WF (reset_password db sess u p).1 := by
  unfold reset_password
  split
  · exact h
  · split
    · exact h
    · split
      · exact h
      · split
        · split
          · exact h
          · exact WF_of_auth_eq (WF_updateHash h u _) rfl rfl
        · split
          · exact WF_of_auth_eq (WF_updateHash h u _) rfl rfl
          · exact h

theorem WF_change_own_password (db : DB) (sess : Option Session)
    (c n : String) (h : WF db) : WF (change_own_password db sess c n).1 := by
  unfold change_own_password
  split
  · exact h
  · split
    · exact h
    · split
      · exact h
      · split
        · exact WF_of_auth_eq (WF_updateHash h _ _) rfl rfl
        · exact h

theorem WF_get_audit_logs (db : DB) (sess : Option Session) (h : WF db) :
    WF (get_audit_logs db sess).1 := by
  unfold get_audit_logs
  split
  · exact h
  · split
    · exact h
    · exact h

/-- One request to any of the core operations, with arbitrary session and
arguments. -/
inductive Step : DB → DB → Prop where
  | step_login : ∀ db u p, Step db (login db u p).1
  | step_logout : ∀ db sess, Step db (logout db sess).1
  | step_create : ∀ db sess u p r, Step db (create_admin db sess u p r).1
  | step_delete : ∀ db sess i, Step db (delete_admin db sess i).1
  | step_transfer : ∀ db sess t, Step db (transfer_ownership db sess t).1
  | step_reset : ∀ db sess u p, Step db (reset_password db sess u p).1
  | step_change : ∀ db sess c n, Step db (change_own_password db sess c n).1
  | step_audit_view : ∀ db sess, Step db (get_audit_logs db sess).1

/-- Database states reachable from the bootstrap state through core
operations. -/
inductive Reachable : DB → Prop where
  | boot : Reachable bootstrapDB
  | step : ∀ {db db'}, Reachable db → Step db db' → Reachable db'

theorem WF_bootstrapDB : WF bootstrapDB := by
  refine ⟨?_, ?_, ?_, ?_⟩ <;> decide

theorem WF_of_step {db db' : DB} (h : WF db) (hs : Step db db') : WF db' := by
  cases hs with
  | step_login u p => exact WF_login db u p h
  | step_logout sess => exact WF_logout db sess h
  | step_create sess u p r => exact WF_create_admin db sess u p r h
  | step_delete sess i => exact WF_delete_admin db sess i h
  | step_transfer sess t => exact WF_transfer_ownership db sess t h
  | step_reset sess u p => exact WF_reset_password db sess u p h
  | step_change sess c n => exact WF_change_own_password db sess c n h
  | step_audit_view sess => exact WF_get_audit_logs db sess h

theorem WF_reachable {db : DB} (h : Reachable db) : WF db := by
  induction h with
  | boot => exact WF_bootstrapDB
  | step _ hs ih => exact WF_of_step ih hs

/-- C1: Starting from the bootstrap state (one seeded owner account),
every core operation — creating an admin/viewer account, deleting an
admin/viewer account, ownership transfer, password reset, and password
change (together with login, logout and audit view) — preserves the
invariant that exactly one account has role owner. -/
theorem exactly_one_owner_invariant (db : DB) (h : Reachable db) :
    ownerCount db = 1 :=
  (WF_reachable h).2.2.2

/-- Witness for C1 at the bootstrap state itself. -/
theorem exactly_one_owner_invariant_witness : ownerCount bootstrapDB = 1 :=
  exactly_one_owner_invariant bootstrapDB Reachable.boot

theorem find?_username_map (f : Account → Account)
    (hf : ∀ a, (f a).username = a.username) (l : List Account) (u : String) :
    (l.map f).find? (fun a => a.username == u)
      = (l.find? (fun a => a.username == u)).map f := by
  rw [List.find?_map]
  have hp : ((fun a : Account => a.username == u) ∘ f)
      = (fun a : Account => a.username == u) := by
    funext a
    simp [Function.comp, hf a]
  rw [hp]

theorem findUser_log_audit (db : DB) (a p : String) (t d : Option String)
    (u : String) : findUser (log_audit_event db a p t d) u = findUser db u :=
  rfl

theorem findUser_transfer_users (db : DB) (t u : String) :
    findUser
      { db with auth_users := (db.auth_users.map demoteOwner).map (promoteTo t) } u
      = ((findUser db u).map demoteOwner).map (promoteTo t) := by
  unfold findUser
  show ((db.auth_users.map demoteOwner).map (promoteTo t)).find?
      (fun a => a.username == u) = _
  rw [find?_username_map (promoteTo t) (promoteTo_username t),
    find?_username_map demoteOwner demoteOwner_username]

theorem contains_owner_iff (r : Role) :
    ([Role.owner].contains r) = true ↔ r = Role.owner := by
  cases r <;> decide

theorem contains_admin_owner_iff (r : Role) :
    ([Role.admin, Role.owner].contains r) = true
      ↔ (r = Role.admin ∨ r = Role.owner) := by
  cases r <;> decide

theorem gate_granted_of_role {db : DB} {s : Session} {c : Account}
    (hc : findUser db s.username = some c) {allowed : List Role}
    (hin : allowed.contains c.role = true) :
    role_required db (some s) allowed = .granted c.role := by
  simp only [role_required, hc]
  have hmem : c.role ∈ allowed := by simpa using hin
  simp [hmem]

/-- C2: when the caller O is the current owner and the target A exists with
role admin, a successful transfer-ownership request makes O an admin and A
the owner, and — the caller never being the target here — the acting
session is invalidated, so a subsequent request with its token is rejected
as Unauthenticated (401). -/
theorem transfer_ownership_success (db : DB) (s : Session) (t : String)
    (o a : Account)
    (ho : findUser db s.username = some o) (hor : o.role = Role.owner)
    (ha : findUser db t = some a) (har : a.role = Role.admin) :
    (transfer_ownership db (some s) t).2.2.status = 200 ∧
    (transfer_ownership db (some s) t).2.2.success = true ∧
    findUser (transfer_ownership db (some s) t).1 s.username
      = some { o with role := Role.admin } ∧
    findUser (transfer_ownership db (some s) t).1 t
      = some { a with role := Role.owner } ∧
    (transfer_ownership db (some s) t).2.1 = none ∧
    (∀ allowed, role_required (transfer_ownership db (some s) t).1
        (transfer_ownership db (some s) t).2.1 allowed
      = GateResult.denied 401 "Authentication required" false) := by
  have hou : o.username = s.username := by simpa using List.find?_some ho
  have hau : a.username = t := by simpa using List.find?_some ha
  have hst : s.username ≠ t := by
    intro he
    rw [he] at ho
    have hoa : o = a := by
      have := ho.symm.trans ha
      exact Option.some.inj this
    rw [hoa, har] at hor
    cases hor
  have hgate : role_required db (some s) [Role.owner] = .granted Role.owner :=
    hor ▸ gate_granted_of_role ho (by rw [hor]; decide)
  have hbody : transfer_ownership db (some s) t =
      (log_audit_event
        { db with
          auth_users := (db.auth_users.map demoteOwner).map (promoteTo t) }
        "transfer_ownership" s.username (some t)
        (some ("old_owner:" ++ s.username ++ ";new_owner:" ++ t)),
       none, (⟨200, true, none, true⟩ : Resp)) := by
    simp only [transfer_ownership, hgate, ha]
    simp [har, hst]
  have hdo : demoteOwner o = { o with role := Role.admin } := by
    unfold demoteOwner; rw [hor]; simp
  have hpo : promoteTo t { o with role := Role.admin }
      = { o with role := Role.admin } := by
    unfold promoteTo
    have : ¬ o.username = t := by rw [hou]; exact hst
    simp [this]
  have hda : demoteOwner a = a := by
    unfold demoteOwner; rw [har]; simp
  have hpa : promoteTo t a = { a with role := Role.owner } := by
    unfold promoteTo; simp [hau]
  refine ⟨by rw [hbody], by rw [hbody], ?_, ?_, by rw [hbody], ?_⟩
  · rw [hbody]
    show findUser (log_audit_event _ _ _ _ _) s.username = _
    rw [findUser_log_audit, findUser_transfer_users, ho]
    simp [hdo, hpo]
  · rw [hbody]
    show findUser (log_audit_event _ _ _ _ _) t = _
    rw [findUser_log_audit, findUser_transfer_users, ha]
    simp [hda, hpa]
  · intro allowed
    rw [hbody]
    rfl

/-- Witness for C2: alice owns, bob is admin; transferring to bob succeeds
with the stated postconditions. -/
theorem transfer_ownership_success_witness :
    (transfer_ownership
        ⟨[⟨1, "alice", generate_password_hash "pw", .owner⟩,
          ⟨2, "bob", generate_password_hash "pw2", .admin⟩], [], 3, 1, 0⟩
        (some ⟨1, "alice", .owner⟩) "bob").2.2.status = 200 ∧
    findUser (transfer_ownership
        ⟨[⟨1, "alice", generate_password_hash "pw", .owner⟩,
          ⟨2, "bob", generate_password_hash "pw2", .admin⟩], [], 3, 1, 0⟩
        (some ⟨1, "alice", .owner⟩) "bob").1 "bob"
      = some ⟨2, "bob", generate_password_hash "pw2", .owner⟩ := by
  have h := transfer_ownership_success
    ⟨[⟨1, "alice", generate_password_hash "pw", .owner⟩,
      ⟨2, "bob", generate_password_hash "pw2", .admin⟩], [], 3, 1, 0⟩
    ⟨1, "alice", .owner⟩ "bob"
    ⟨1, "alice", generate_password_hash "pw", .owner⟩
    ⟨2, "bob", generate_password_hash "pw2", .admin⟩
    (by decide) rfl (by decide) rfl
  exact ⟨h.1, h.2.2.2.1⟩

/-- C3: transfer-ownership fails with 403 when the caller is not the
owner, 404 when the target does not exist, and 400 when the target exists
with a non-admin role; in every failure case the account table (hence
every role) is unchanged. -/
theorem transfer_ownership_failures (db : DB) (s : Session) (t : String) :
    (∀ c, findUser db s.username = some c → c.role ≠ Role.owner →
      (transfer_ownership db (some s) t).2.2.status = 403 ∧
      (transfer_ownership db (some s) t).1.auth_users = db.auth_users) ∧
    (∀ o, findUser db s.username = some o → o.role = Role.owner →
      findUser db t = none →
      (transfer_ownership db (some s) t).2.2.status = 404 ∧
      (transfer_ownership db (some s) t).1.auth_users = db.auth_users) ∧
    (∀ o a, findUser db s.username = some o → o.role = Role.owner →
      findUser db t = some a → a.role ≠ Role.admin →
      (transfer_ownership db (some s) t).2.2.status = 400 ∧
      (transfer_ownership db (some s) t).1.auth_users = db.auth_users) := by
  refine ⟨?_, ?_, ?_⟩
  · intro c hc hcr
    have hcon : ([Role.owner].contains c.role) = false := by
      rw [Bool.eq_false_iff]
      intro hx
      exact hcr ((contains_owner_iff c.role).mp hx)
    have hgate : role_required db (some s) [Role.owner]
        = .denied 403 "Access denied" false := by
      simp only [role_required, hc, hcon]
      simp
    simp only [transfer_ownership, hgate]
    simp [errResp]
  · intro o ho hor hnone
    have hgate : role_required db (some s) [Role.owner] = .granted Role.owner :=
      hor ▸ gate_granted_of_role ho (by rw [hor]; decide)
    simp only [transfer_ownership, hgate, hnone]
    simp [errResp]
  · intro o a ho hor ha hna
    have hgate : role_required db (some s) [Role.owner] = .granted Role.owner :=
      hor ▸ gate_granted_of_role ho (by rw [hor]; decide)
    simp only [transfer_ownership, hgate, ha]
    simp [hna, errResp]

/-- Witness for C3: an admin caller is refused (403), transfer to a
missing target is 404, transfer to a viewer target is 400, all leaving the
table unchanged. -/
theorem transfer_ownership_failures_witness :
    ((transfer_ownership
        ⟨[⟨1, "alice", "h1", .owner⟩, ⟨2, "bob", "h2", .admin⟩,
          ⟨3, "carol", "h3", .viewer⟩], [], 4, 1, 0⟩
        (some ⟨2, "bob", .admin⟩) "alice").2.2.status = 403 ∧
      (transfer_ownership
        ⟨[⟨1, "alice", "h1", .owner⟩, ⟨2, "bob", "h2", .admin⟩,
          ⟨3, "carol", "h3", .viewer⟩], [], 4, 1, 0⟩
        (some ⟨2, "bob", .admin⟩) "alice").1.auth_users
        = [⟨1, "alice", "h1", .owner⟩, ⟨2, "bob", "h2", .admin⟩,
          ⟨3, "carol", "h3", .viewer⟩]) ∧
    ((transfer_ownership
        ⟨[⟨1, "alice", "h1", .owner⟩, ⟨2, "bob", "h2", .admin⟩,
          ⟨3, "carol", "h3", .viewer⟩], [], 4, 1, 0⟩
        (some ⟨1, "alice", .owner⟩) "dave").2.2.status = 404) ∧
    ((transfer_ownership
        ⟨[⟨1, "alice", "h1", .owner⟩, ⟨2, "bob", "h2", .admin⟩,
          ⟨3, "carol", "h3", .viewer⟩], [], 4, 1, 0⟩
        (some ⟨1, "alice", .owner⟩) "carol").2.2.status = 400) := by
  refine ⟨?_, ?_, ?_⟩
  · exact (transfer_ownership_failures
      ⟨[⟨1, "alice", "h1", .owner⟩, ⟨2, "bob", "h2", .admin⟩,
        ⟨3, "carol", "h3", .viewer⟩], [], 4, 1, 0⟩
      ⟨2, "bob", .admin⟩ "alice").1
      ⟨2, "bob", "h2", .admin⟩ (by decide) (by decide)
  · exact ((transfer_ownership_failures
      ⟨[⟨1, "alice", "h1", .owner⟩, ⟨2, "bob", "h2", .admin⟩,
        ⟨3, "carol", "h3", .viewer⟩], [], 4, 1, 0⟩
      ⟨1, "alice", .owner⟩ "dave").2.1
      ⟨1, "alice", "h1", .owner⟩ (by decide) rfl (by decide)).1
  · exact ((transfer_ownership_failures
      ⟨[⟨1, "alice", "h1", .owner⟩, ⟨2, "bob", "h2", .admin⟩,
        ⟨3, "carol", "h3", .viewer⟩], [], 4, 1, 0⟩
      ⟨1, "alice", .owner⟩ "carol").2.2
      ⟨1, "alice", "h1", .owner⟩ ⟨3, "carol", "h3", .viewer⟩
      (by decide) rfl (by decide) (by decide)).1

/-- C10: a session whose username no longer matches any account is
rejected with 401 and cleared by the `role_required` gate, before any
handler logic runs: every role-gated auth endpoint returns the untouched
database, a cleared session, and the 401 body. -/
theorem stale_session_rejected (db : DB) (s : Session)
    (h : findUser db s.username = none) :
    (∀ allowed, role_required db (some s) allowed
        = GateResult.denied 401 "User not found" true) ∧
    (∀ u p r, create_admin db (some s) u p r
        = (db, none, errResp 401 "User not found")) ∧
    (∀ i, delete_admin db (some s) i
        = (db, none, errResp 401 "User not found")) ∧
    (∀ t, transfer_ownership db (some s) t
        = (db, none, errResp 401 "User not found")) ∧
    (∀ u p, reset_password db (some s) u p
        = (db, none, errResp 401 "User not found")) ∧
    (∀ c n, change_own_password db (some s) c n
        = (db, none, errResp 401 "User not found")) ∧
    (get_audit_logs db (some s)
        = (db, none, errResp 401 "User not found", [])) := by
  have hgate : ∀ allowed, role_required db (some s) allowed
      = GateResult.denied 401 "User not found" true := by
    intro allowed
    simp only [role_required, h]
  refine ⟨hgate, ?_, ?_, ?_, ?_, ?_, ?_⟩
  · intro u p r
    simp [create_admin, hgate]
  · intro i
    simp [delete_admin, hgate]
  · intro t
    simp [transfer_ownership, hgate]
  · intro u p
    simp [reset_password, hgate]
  · intro c n
    simp [change_own_password, hgate]
  · simp [get_audit_logs, hgate]

/-- Witness for C10: a session for the deleted account ghost is rejected
everywhere. -/
theorem stale_session_rejected_witness :
    role_required
        ⟨[⟨1, "alice", "h1", .owner⟩], [], 2, 1, 0⟩
        (some ⟨7, "ghost", .admin⟩) [Role.owner, Role.admin, Role.viewer]
      = GateResult.denied 401 "User not found" true ∧
    delete_admin ⟨[⟨1, "alice", "h1", .owner⟩], [], 2, 1, 0⟩
        (some ⟨7, "ghost", .admin⟩) 1
      = (⟨[⟨1, "alice", "h1", .owner⟩], [], 2, 1, 0⟩, none,
         errResp 401 "User not found") := by
  have h := stale_session_rejected
    ⟨[⟨1, "alice", "h1", .owner⟩], [], 2, 1, 0⟩ ⟨7, "ghost", .admin⟩
    (by decide)
  exact ⟨h.1 [Role.owner, Role.admin, Role.viewer], h.2.2.1 1⟩

/-- C5 counterexample: after alice (owner) transfers ownership to bob,
bob's still-live session carries the login-time snapshot role admin and
was never invalidated, yet `role_required` grants it the owner role: the
account's current database role, not the login snapshot, authorizes the
request. -/
theorem session_role_snapshot_not_authoritative :
    role_required
        (transfer_ownership
          ⟨[⟨1, "alice", "h1", .owner⟩, ⟨2, "bob", "h2", .admin⟩], [], 3, 1, 0⟩
          (some ⟨1, "alice", .owner⟩) "bob").1
        (some ⟨2, "bob", .admin⟩) [Role.owner]
      = GateResult.granted Role.owner ∧
    (⟨2, "bob", .admin⟩ : Session).role = Role.admin := by
  exact ⟨by decide, rfl⟩

/-- C5 amended: the role granted to a session's requests is the account's
current role fetched from the store at each request, not the login-time
snapshot: two sessions for the same username with different snapshot
roles and ids authorize identically, and whenever the account exists the
gate's outcome is exactly determined by the account's current role. -/
theorem role_required_uses_current_db_role (db : DB) (allowed : List Role)
    (i1 i2 : Nat) (u : String) (r1 r2 : Role) :
    role_required db (some ⟨i1, u, r1⟩) allowed
      = role_required db (some ⟨i2, u, r2⟩) allowed ∧
    (∀ a, findUser db u = some a →
      role_required db (some ⟨i1, u, r1⟩) allowed
        = if allowed.contains a.role then .granted a.role
          else .denied 403 "Access denied" false) := by
  constructor
  · simp [role_required]
  · intro a ha
    simp only [role_required, ha]

/-- Witness for the C5 amended theorem: a session with a stale viewer
snapshot for the owner account is granted owner. -/
theorem role_required_uses_current_db_role_witness :
    role_required ⟨[⟨1, "alice", "h", .owner⟩], [], 2, 1, 0⟩
        (some ⟨5, "alice", .viewer⟩) [Role.owner]
      = GateResult.granted Role.owner := by
  have h := (role_required_uses_current_db_role
    ⟨[⟨1, "alice", "h", .owner⟩], [], 2, 1, 0⟩ [Role.owner] 5 5 "alice"
    .viewer .viewer).2 ⟨1, "alice", "h", .owner⟩ (by decide)
  exact h.trans (by decide)

theorem findUser_updateHash (db : DB) (u hsh w : String) :
    findUser (updateHash db u hsh) w
      = (findUser db w).map
          (fun a => if a.username = u then { a with password_hash := hsh }
                    else a) := by
  unfold updateHash findUser
  exact find?_username_map _
    (fun a => by by_cases hc : a.username = u <;> simp [hc]) _ _

/-- C7: a change-password request whose supplied current password does not
match the caller's stored hash fails with 401 and leaves the account
table (hence the stored hash) unchanged; when it matches, the caller's
stored hash is replaced by the hash of the new password. -/
theorem change_password_current_check (db : DB) (s : Session)
    (cur np : String) (c : Account)
    (hc : findUser db s.username = some c)
    (hrole : c.role = Role.admin ∨ c.role = Role.owner) :
    (check_password_hash c.password_hash cur = false →
      (change_own_password db (some s) cur np).2.2.status = 401 ∧
      (change_own_password db (some s) cur np).1.auth_users
        = db.auth_users) ∧
    (check_password_hash c.password_hash cur = true →
      (change_own_password db (some s) cur np).2.2.status = 200 ∧
      findUser (change_own_password db (some s) cur np).1 s.username
        = some { c with password_hash := generate_password_hash np }) := by
  have hcu : c.username = s.username := by simpa using List.find?_some hc
  have hgate : role_required db (some s) [Role.admin, Role.owner]
      = .granted c.role :=
    gate_granted_of_role hc ((contains_admin_owner_iff c.role).mpr hrole)
  constructor
  · intro hbad
    simp only [change_own_password, hgate, hc, hbad]
    simp [errResp]
  · intro hgood
    simp only [change_own_password, hgate, hc, hgood]
    constructor
    · simp [okResp]
    · simp [findUser_log_audit, findUser_updateHash, hc, hcu]

/-- Witness for C7: alice changes her password with a wrong and then with
the right current password. -/
theorem change_password_current_check_witness :
    (change_own_password
        ⟨[⟨1, "alice", generate_password_hash "old", .owner⟩], [], 2, 1, 0⟩
        (some ⟨1, "alice", .owner⟩) "bad" "new").2.2.status = 401 ∧
    (change_own_password
        ⟨[⟨1, "alice", generate_password_hash "old", .owner⟩], [], 2, 1, 0⟩
        (some ⟨1, "alice", .owner⟩) "old" "new").2.2.status = 200 := by
  have h := change_password_current_check
    ⟨[⟨1, "alice", generate_password_hash "old", .owner⟩], [], 2, 1, 0⟩
    ⟨1, "alice", .owner⟩ "bad" "new"
    ⟨1, "alice", generate_password_hash "old", .owner⟩ (by decide)
    (Or.inr rfl)
  have h2 := change_password_current_check
    ⟨[⟨1, "alice", generate_password_hash "old", .owner⟩], [], 2, 1, 0⟩
    ⟨1, "alice", .owner⟩ "old" "new"
    ⟨1, "alice", generate_password_hash "old", .owner⟩ (by decide)
    (Or.inr rfl)
  exact ⟨(h.1 (by decide)).1, (h2.2 (by decide)).1⟩

/-- C8: an owner's GET /audit/logs returns at most 100 entries, ordered
most recent first (non-increasing timestamps), and performs no write to
the database. -/
theorem audit_logs_bounded_sorted (db : DB) (s : Session) (c : Account)
    (hc : findUser db s.username = some c) (hrole : c.role = Role.owner) :
    (get_audit_logs db (some s)).2.2.2.length ≤ 100 ∧
    List.Sorted tsDesc (get_audit_logs db (some s)).2.2.2 ∧
    (get_audit_logs db (some s)).1 = db ∧
    (get_audit_logs db (some s)).2.2.1.status = 200 := by
  have hgate : role_required db (some s) [Role.owner] = .granted c.role :=
    gate_granted_of_role hc (by rw [hrole]; decide)
  refine ⟨?_, ?_, ?_, ?_⟩
  · simp only [get_audit_logs, hgate]
    rw [List.length_take]
    exact Nat.min_le_left _ _
  · simp only [get_audit_logs, hgate]
    exact List.Pairwise.sublist (List.take_sublist _ _)
      (List.sorted_insertionSort tsDesc db.audit_log)
  · simp [get_audit_logs, hgate]
  · simp [get_audit_logs, hgate, okResp]

/-- Witness for C8 on the bootstrap log. -/
theorem audit_logs_bounded_sorted_witness :
    (get_audit_logs bootstrapDB (some ⟨1, "admin", .owner⟩)).2.2.2.length ≤ 100 ∧
    (get_audit_logs bootstrapDB (some ⟨1, "admin", .owner⟩)).2.2.1.status = 200 := by
  have h := audit_logs_bounded_sorted bootstrapDB ⟨1, "admin", .owner⟩
    ⟨1, "admin", generate_password_hash "admin123", .owner⟩ (by decide) rfl
  exact ⟨h.1, h.2.2.2⟩

/-- C9 (code defect): the repeated per-handler `except Exception` block
echoes the raw exception text to the client in a 500 body, instead of the
generic message that `internal_error_response` would give. -/
theorem exception_text_echoed :
    handle_unexpected_exception "unable to open database file"
      = errResp 500 "unable to open database file" ∧
    (handle_unexpected_exception "unable to open database file").error
      ≠ internal_error_response.error := by
  exact ⟨rfl, by decide⟩

/-- C6: for an authenticated admin caller (account role and session
snapshot both admin), resetting a target whose role is admin or owner
fails with 403 and leaves the account table (hence the target's stored
hash) unchanged, while resetting a viewer succeeds and replaces the
target's hash; an owner caller may reset any existing account's password,
including their own. -/
theorem reset_password_permissions (db : DB) (s : Session)
    (target np : String) :
    (∀ c tacc, findUser db s.username = some c → c.role = Role.admin →
      s.role = Role.admin → findUser db target = some tacc →
      ((tacc.role = Role.admin ∨ tacc.role = Role.owner →
        (reset_password db (some s) target np).2.2.status = 403 ∧
        (reset_password db (some s) target np).1.auth_users
          = db.auth_users) ∧
      (tacc.role = Role.viewer →
        (reset_password db (some s) target np).2.2.status = 200 ∧
        findUser (reset_password db (some s) target np).1 target
          = some { tacc with
              password_hash := generate_password_hash np }))) ∧
    (∀ c tacc, findUser db s.username = some c → c.role = Role.owner →
      s.role = Role.owner → findUser db target = some tacc →
      (reset_password db (some s) target np).2.2.status = 200 ∧
      findUser (reset_password db (some s) target np).1 target
        = some { tacc with password_hash := generate_password_hash np }) := by
  constructor
  · intro c tacc hc hcr hsr htacc
    have hgate : role_required db (some s) [Role.admin, Role.owner]
        = .granted c.role :=
      gate_granted_of_role hc
        ((contains_admin_owner_iff c.role).mpr (Or.inl hcr))
    have htu : tacc.username = target := by simpa using List.find?_some htacc
    constructor
    · intro hbad
      have hnv : tacc.role ≠ Role.viewer := by
        rcases hbad with hb | hb <;> rw [hb] <;> decide
      simp only [reset_password, hgate, htacc, hsr]
      simp [hnv, errResp]
    · intro hview
      simp only [reset_password, hgate, htacc, hsr]
      simp [hview, okResp, findUser_log_audit, findUser_updateHash, htacc, htu]
  · intro c tacc hc hcr hsr htacc
    have hgate : role_required db (some s) [Role.admin, Role.owner]
        = .granted c.role :=
      gate_granted_of_role hc
        ((contains_admin_owner_iff c.role).mpr (Or.inr hcr))
    have htu : tacc.username = target := by simpa using List.find?_some htacc
    simp only [reset_password, hgate, htacc, hsr]
    simp [okResp, findUser_log_audit, findUser_updateHash, htacc, htu]

/-- Witness for C6: admin bob is refused on owner alice, succeeds on
viewer carol; owner alice resets her own password. -/
theorem reset_password_permissions_witness :
    (reset_password
        ⟨[⟨1, "alice", "h1", .owner⟩, ⟨2, "bob", "h2", .admin⟩,
          ⟨3, "carol", "h3", .viewer⟩], [], 4, 1, 0⟩
        (some ⟨2, "bob", .admin⟩) "alice" "np").2.2.status = 403 ∧
    (reset_password
        ⟨[⟨1, "alice", "h1", .owner⟩, ⟨2, "bob", "h2", .admin⟩,
          ⟨3, "carol", "h3", .viewer⟩], [], 4, 1, 0⟩
        (some ⟨2, "bob", .admin⟩) "carol" "np").2.2.status = 200 ∧
    (reset_password
        ⟨[⟨1, "alice", "h1", .owner⟩, ⟨2, "bob", "h2", .admin⟩,
          ⟨3, "carol", "h3", .viewer⟩], [], 4, 1, 0⟩
        (some ⟨1, "alice", .owner⟩) "alice" "np").2.2.status = 200 := by
  refine ⟨?_, ?_, ?_⟩
  · exact (((reset_password_permissions
      ⟨[⟨1, "alice", "h1", .owner⟩, ⟨2, "bob", "h2", .admin⟩,
        ⟨3, "carol", "h3", .viewer⟩], [], 4, 1, 0⟩
      ⟨2, "bob", .admin⟩ "alice" "np").1
      ⟨2, "bob", "h2", .admin⟩ ⟨1, "alice", "h1", .owner⟩
      (by decide) rfl rfl (by decide)).1 (Or.inr rfl)).1
  · exact (((reset_password_permissions
      ⟨[⟨1, "alice", "h1", .owner⟩, ⟨2, "bob", "h2", .admin⟩,
        ⟨3, "carol", "h3", .viewer⟩], [], 4, 1, 0⟩
      ⟨2, "bob", .admin⟩ "carol" "np").1
      ⟨2, "bob", "h2", .admin⟩ ⟨3, "carol", "h3", .viewer⟩
      (by decide) rfl rfl (by decide)).2 rfl).1
  · exact ((reset_password_permissions
      ⟨[⟨1, "alice", "h1", .owner⟩, ⟨2, "bob", "h2", .admin⟩,
        ⟨3, "carol", "h3", .viewer⟩], [], 4, 1, 0⟩
      ⟨1, "alice", .owner⟩ "alice" "np").2
      ⟨1, "alice", "h1", .owner⟩ ⟨1, "alice", "h1", .owner⟩
      (by decide) rfl rfl (by decide)).1

/-- C4 counterexample: the owner's audit-log view succeeds (HTTP 200)
yet appends no audit entry — the audit log is unchanged — refuting the
claim that every successful audit-log view produces exactly one new
AuditEntry; likewise a logout without a live session reports success yet
appends nothing. -/
theorem audit_view_appends_nothing :
    (get_audit_logs bootstrapDB (some ⟨1, "admin", .owner⟩)).2.2.1.status
      = 200 ∧
    (get_audit_logs bootstrapDB (some ⟨1, "admin", .owner⟩)).2.2.1.success
      = true ∧
    (get_audit_logs bootstrapDB (some ⟨1, "admin", .owner⟩)).1.audit_log
      = bootstrapDB.audit_log ∧
    (logout bootstrapDB none).2.2.status = 200 ∧
    (logout bootstrapDB none).1.audit_log = bootstrapDB.audit_log := by
  refine ⟨?_, ?_, ?_, ?_, ?_⟩ <;> decide

/-- C4 amended: every successful login, authenticated logout, account
create/delete, ownership transfer, and password reset/change appends
exactly one new AuditEntry whose performed_by is the caller's username
(the supplied username at login, the session username otherwise), while
a successful audit-log view appends none. -/
theorem audit_one_entry_per_success (db : DB) (s : Session) :
    (∀ u p, (login db u p).2.2.success = true →
      ∃ e, (login db u p).1.audit_log = db.audit_log ++ [e] ∧
        e.performed_by = u) ∧
    ((logout db (some s)).2.2.success = true →
      ∃ e, (logout db (some s)).1.audit_log = db.audit_log ++ [e] ∧
        e.performed_by = s.username) ∧
    (∀ u p r, (create_admin db (some s) u p r).2.2.success = true →
      ∃ e, (create_admin db (some s) u p r).1.audit_log
          = db.audit_log ++ [e] ∧ e.performed_by = s.username) ∧
    (∀ i, (delete_admin db (some s) i).2.2.success = true →
      ∃ e, (delete_admin db (some s) i).1.audit_log
          = db.audit_log ++ [e] ∧ e.performed_by = s.username) ∧
    (∀ t, (transfer_ownership db (some s) t).2.2.success = true →
      ∃ e, (transfer_ownership db (some s) t).1.audit_log
          = db.audit_log ++ [e] ∧ e.performed_by = s.username) ∧
    (∀ u p, (reset_password db (some s) u p).2.2.success = true →
      ∃ e, (reset_password db (some s) u p).1.audit_log
          = db.audit_log ++ [e] ∧ e.performed_by = s.username) ∧
    (∀ c n, (change_own_password db (some s) c n).2.2.success = true →
      ∃ e, (change_own_password db (some s) c n).1.audit_log
          = db.audit_log ++ [e] ∧ e.performed_by = s.username) ∧
    ((get_audit_logs db (some s)).2.2.1.success = true →
      (get_audit_logs db (some s)).1.audit_log = db.audit_log) := by
  refine ⟨?_, ?_, ?_, ?_, ?_, ?_, ?_, ?_⟩
  · intro u p hsucc
    cases hf : findUser db u with
    | none => exfalso; simp [login, hf, errResp] at hsucc
    | some a =>
      by_cases hck : check_password_hash a.password_hash p = true
      · refine ⟨⟨db.next_audit_id, db.clock, "login", u, none, none⟩, ?_, rfl⟩
        simp [login, hf, hck, log_audit_event]
      · exfalso; simp [login, hf, hck, errResp] at hsucc
  · intro _
    refine ⟨⟨db.next_audit_id, db.clock, "logout", s.username, none, none⟩,
      ?_, rfl⟩
    simp [logout, log_audit_event]
  · intro u p r hsucc
    cases hg : role_required db (some s) [Role.owner] with
    | denied st m cl => exfalso; simp [create_admin, hg, errResp] at hsucc
    | granted r0 =>
      cases hparse : (if r == "admin" then some Role.admin
          else if r == "viewer" then some Role.viewer else none) with
      | none =>
        exfalso
        simp only [create_admin, hg, hparse] at hsucc
        simp [errResp] at hsucc
      | some role =>
        by_cases hdup : (findUser db u).isSome = true
        · exfalso
          simp only [create_admin, hg, hparse] at hsucc
          simp [hdup, errResp] at hsucc
        · refine ⟨⟨db.next_audit_id, db.clock, "create_" ++ r, s.username,
            some u, none⟩, ?_, rfl⟩
          simp only [create_admin, hg, hparse]
          simp [hdup, log_audit_event]
  · intro i hsucc
    cases hg : role_required db (some s) [Role.owner] with
    | denied st m cl => exfalso; simp [delete_admin, hg, errResp] at hsucc
    | granted r0 =>
      cases hfi : findUserById db i with
      | none => exfalso; simp [delete_admin, hg, hfi, errResp] at hsucc
      | some u =>
        by_cases hro : u.role = Role.owner
        · exfalso
          simp only [delete_admin, hg, hfi] at hsucc
          simp [hro, errResp] at hsucc
        · by_cases hself : i = s.user_id
          · exfalso
            simp only [delete_admin, hg, hfi] at hsucc
            simp [hro, hself, errResp] at hsucc
          · refine ⟨⟨db.next_audit_id, db.clock, "delete_" ++ u.role.toStr,
              s.username, some u.username, none⟩, ?_, rfl⟩
            simp only [delete_admin, hg, hfi]
            simp [hro, hself, log_audit_event]
  · intro t hsucc
    cases hg : role_required db (some s) [Role.owner] with
    | denied st m cl =>
      exfalso; simp [transfer_ownership, hg, errResp] at hsucc
    | granted r0 =>
      cases hft : findUser db t with
      | none => exfalso; simp [transfer_ownership, hg, hft, errResp] at hsucc
      | some a =>
        by_cases hna : a.role = Role.admin
        · by_cases hst : s.username = t
          · refine ⟨⟨db.next_audit_id, db.clock, "transfer_ownership",
              s.username, some t,
              some ("old_owner:" ++ s.username ++ ";new_owner:" ++ t)⟩,
              ?_, rfl⟩
            simp [transfer_ownership, hg, hft, hna, hst, log_audit_event]
          · refine ⟨⟨db.next_audit_id, db.clock, "transfer_ownership",
              s.username, some t,
              some ("old_owner:" ++ s.username ++ ";new_owner:" ++ t)⟩,
              ?_, rfl⟩
            simp [transfer_ownership, hg, hft, hna, hst, log_audit_event]
        · exfalso
          simp [transfer_ownership, hg, hft, hna, errResp] at hsucc
  · intro u p hsucc
    cases hg : role_required db (some s) [Role.admin, Role.owner] with
    | denied st m cl => exfalso; simp [reset_password, hg, errResp] at hsucc
    | granted r0 =>
      cases hft : findUser db u with
      | none => exfalso; simp [reset_password, hg, hft, errResp] at hsucc
      | some tacc =>
        by_cases hadm : s.role = Role.admin
        · by_cases hv : tacc.role = Role.viewer
          · refine ⟨⟨db.next_audit_id, db.clock, "reset_password",
              s.username, some u, none⟩, ?_, rfl⟩
            simp [reset_password, hg, hft, hadm, hv, log_audit_event,
              updateHash]
          · exfalso
            simp [reset_password, hg, hft, hadm, hv, errResp] at hsucc
        · by_cases hown : s.role = Role.owner
          · refine ⟨⟨db.next_audit_id, db.clock, "reset_password",
              s.username, some u, none⟩, ?_, rfl⟩
            simp [reset_password, hg, hft, hadm, hown, log_audit_event,
              updateHash]
          · exfalso
            simp [reset_password, hg, hft, hadm, hown, errResp] at hsucc
  · intro c n hsucc
    cases hg : role_required db (some s) [Role.admin, Role.owner] with
    | denied st m cl =>
      exfalso; simp [change_own_password, hg, errResp] at hsucc
    | granted r0 =>
      cases hf : findUser db s.username with
      | none =>
        exfalso; simp [change_own_password, hg, hf, errResp] at hsucc
      | some a =>
        by_cases hck : check_password_hash a.password_hash c = true
        · refine ⟨⟨db.next_audit_id, db.clock, "change_password",
            s.username, some s.username, none⟩, ?_, rfl⟩
          simp [change_own_password, hg, hf, hck, log_audit_event,
            updateHash]
        · exfalso
          simp [change_own_password, hg, hf, hck, errResp] at hsucc
  · intro _
    cases hg : role_required db (some s) [Role.owner] with
    | denied st m cl => simp [get_audit_logs, hg]
    | granted r0 => simp [get_audit_logs, hg]

/-- Witness for the C4 amended theorem: logging in as the seeded owner
appends exactly one audit entry performed by admin. -/
theorem audit_one_entry_per_success_witness :
    ∃ e, (login bootstrapDB "admin" "admin123").1.audit_log
        = bootstrapDB.audit_log ++ [e] ∧ e.performed_by = "admin" :=
  (audit_one_entry_per_success bootstrapDB ⟨1, "admin", .owner⟩).1
    "admin" "admin123" (by decide)

end LicenseManager
